import Mathlib

/-!
Verification development for the kuma-uptime-beacon status-synchronization
engine (`src/beacon.py`, class `StatusMonitor`).

The Python code is shallowly embedded: each method of `StatusMonitor`
becomes a Lean function over an explicit `MonitorState`; the mutable
attributes of `self` become fields of that state, and network I/O becomes
an explicit `FetchResult` argument supplied by the environment.  Side
effects (GPIO pin writes, prints, sleeps) are modelled as an emitted
`Event` trace.  Python dictionaries become association lists with
insertion-order-preserving update (`dictGet` / `dictInsert`), matching
CPython dict semantics for lookup and key order.
-/

namespace Beacon

/-- Lookup in an association list with `String` keys: the first matching
pair wins, which agrees with Python `dict.get` because `dictInsert` keeps
keys unique. Corresponds to `d.get(k)` returning `None` when absent. -/
def dictGet {β : Type} : List (String × β) → String → Option β
  | [], _ => none
  | p :: rest, k => if p.1 = k then some p.2 else dictGet rest k

/-- Python `d[k] = v` on a dict: if the key is present the value is
replaced in place (position preserved), otherwise the pair is appended
at the end, matching CPython insertion-order semantics. -/
def dictInsert (m : List (String × Int)) (k : String) (v : Int) : List (String × Int) :=
  if m.any (fun p => decide (p.1 = k)) then
    m.map (fun p => if p.1 = k then (k, v) else p)
  else m ++ [(k, v)]

/-- One heartbeat entry of the wire payload.  The code only ever reads
`entry.get("status")` (`beacon.py` line 176), so only that field is
modelled; a missing `status` key is `none`.  Other wire fields
(`time`, ...) are never touched by the program. -/
structure HeartbeatEntry where
  status : Option Int
  deriving DecidableEq

/-- The heartbeat payload `{"heartbeatList": {"<monitorId>": [entry, ...]}}`
as stored in `self.heartbeat_data` after a successful fetch.  Keys are the
stringified monitor ids of the wire format. -/
structure HeartbeatData where
  heartbeatList : List (String × List HeartbeatEntry)
  deriving DecidableEq

/-- One monitor object of the status-page payload: the code reads
`monitor["name"]` and `monitor["id"]` (`beacon.py` line 164). -/
structure MonitorInfo where
  name : String
  id : Int
  deriving DecidableEq

/-- One group object of the status-page payload: the code reads
`group["name"]`, `group["id"]` and `group.get("monitorList", [])`
(`beacon.py` lines 162-163). -/
structure GroupInfo where
  name : String
  id : Int
  monitorList : List MonitorInfo
  deriving DecidableEq

/-- The status-page payload: the code reads
`data.get("publicGroupList", [])` (`beacon.py` line 161). -/
structure StatusPageData where
  publicGroupList : List GroupInfo
  deriving DecidableEq

/-- A configured service binding `{ name?, id?, pin, enabled? }` from the
`services` list of the configuration.  `name` and `id` and `enabled` may be
absent (`service.get(...)`); `pin` is always read with `service["pin"]`. -/
structure ServiceBinding where
  name : Option String
  id : Option Int
  pin : Int
  enabled : Option Bool
  deriving DecidableEq

/-- A Python exception raised by indexing a missing dict key, as in
`service["name"]` when the binding has no `name` field. -/
inductive PyErr where
  | keyError (key : String)
  deriving DecidableEq

/-- Observable side effects of the engine: GPIO pin writes
(`GPIO.output(pin, HIGH/LOW)`), the status prints of `_run_periodic`,
the error print of its `except` clause, and `time.sleep(interval)`. -/
inductive Event where
  | gpio (pin : Int) (high : Bool)
  | printHeader
  | printStatus (name : String) (up : Bool)
  | printError (msg : String)
  | sleep (secs : Int)
  deriving DecidableEq

/-- `true` exactly on GPIO pin-write events. -/
def isGpioEvent : Event → Bool
  | Event.gpio _ _ => true
  | _ => false

/-- Outcome of one HTTP fetch, supplied by the environment: `success`
carries the parsed JSON payload; `failure` stands for any exception
raised before the assignment to the state attribute (network error,
non-2xx from `raise_for_status`, or a `json()` decode error). -/
inductive FetchResult (α : Type) where
  | success (payload : α)
  | failure (err : String)
  deriving DecidableEq

/-- The mutable state of a `StatusMonitor` instance.  `base_url`, `slug`,
`name_to_id`, `heartbeat_data`, `services` are the Python attributes;
`stopEventSet` is `self._stop_event.is_set()`; `thread` models
`self._thread` (`none` = attribute is `None`, `some alive` = a `Thread`
object whose `is_alive()` returns `alive`); `aliveThreads` is a ghost
field counting the OS threads spawned by this instance that are still
alive, used to state the start/stop lifecycle claims. -/
structure MonitorState where
  base_url : String
  slug : String
  name_to_id : List (String × Int)
  heartbeat_data : HeartbeatData
  services : List ServiceBinding
  stopEventSet : Bool
  thread : Option Bool
  aliveThreads : Nat
  deriving DecidableEq

/-- Python truthiness of `service.get("id")`: `None` and `0` are falsy,
every other integer is truthy. -/
def pyTruthyOptInt : Option Int → Bool
  | none => false
  | some n => decide (n ≠ 0)

/-- `service.get("enabled", True)` (`beacon.py` line 214). -/
def pyEnabled (s : ServiceBinding) : Bool := s.enabled.getD true

/-- Python `str(monitor_id)` as used in `is_up` (`beacon.py` line 175):
`str(None) = "None"`, `str(n)` the usual decimal rendering. -/
def pyStr : Option Int → String
  | none => "None"
  | some n => toString n

/-- `StatusMonitor.is_up` (`beacon.py` lines 173-176):
`entries = self.heartbeat_data.get("heartbeatList", {}).get(str(monitor_id), [])`
then `bool(entries) and entries[-1].get("status") == 1`.  The `match` on
`getLast?` folds the emptiness test and the last-entry access together:
`getLast?` is `none` exactly on the empty list. -/
def is_up (hb : HeartbeatData) (monitor_id : Option Int) : Bool :=
  match ((dictGet hb.heartbeatList (pyStr monitor_id)).getD []).getLast? with
  | none => false
  | some e => e.status == some 1

/-- The body of the `publicGroupList` loop of `fetch_status_page`
(`beacon.py` lines 161-164): insert `group.name → group.id`, then each
`monitor.name → monitor.id` of the monitorList of that group, in order. -/
def insertGroup (m : List (String × Int)) (g : GroupInfo) : List (String × Int) :=
  g.monitorList.foldl (fun acc mon => dictInsert acc mon.name mon.id)
    (dictInsert m g.name g.id)

/-- The mapping built by `StatusMonitor.fetch_status_page`
(`beacon.py` lines 153-165) from a successfully fetched and parsed
status-page payload, starting from the empty dict `mapping = {}`. -/
def fetch_status_page_mapping (d : StatusPageData) : List (String × Int) :=
  d.publicGroupList.foldl insertGroup []

/-- The name/id pairs of the payload in traversal order: for each group,
first the group pair, then its monitor pairs.  Used to state the
last-write-wins property of `fetch_status_page_mapping`. -/
def groupPairs (g : GroupInfo) : List (String × Int) :=
  (g.name, g.id) :: g.monitorList.map (fun mon => (mon.name, mon.id))

/-- All name/id pairs of the payload in traversal order. -/
def traversalPairs (d : StatusPageData) : List (String × Int) :=
  (d.publicGroupList.map groupPairs).flatten

/-- The value of the LAST pair carrying key `k`, in list order: the
specification-side reading of "the later-inserted entry wins". -/
def lastVal : List (String × Int) → String → Option Int
  | [], _ => none
  | p :: l, k =>
    match lastVal l k with
    | some v => some v
    | none => if p.1 = k then some p.2 else none

/-- Folding `dictInsert` over a list of pairs. -/
def insertAll (m : List (String × Int)) (l : List (String × Int)) : List (String × Int) :=
  l.foldl (fun acc p => dictInsert acc p.1 p.2) m

/-- `service_id = service.get("id") or self.name_to_id.get(service["name"])`
(`beacon.py` line 215).  A truthy explicit id (present and nonzero) wins;
otherwise the name is looked up in the registry mapping, which raises
`KeyError` when the binding has no `name` key at all. -/
def resolve_service_id (reg : List (String × Int)) (s : ServiceBinding) :
    Except PyErr (Option Int) :=
  if pyTruthyOptInt s.id then Except.ok s.id
  else
    match s.name with
    | some n => Except.ok (dictGet reg n)
    | none => Except.error (PyErr.keyError "name")

/-- `StatusMonitor.update_gpio` (`beacon.py` lines 211-220), with
`self.name_to_id` and `self.heartbeat_data` passed explicitly.  Returns
the list of GPIO write events emitted so far and, if a `KeyError`
aborted the loop, the exception (events before the abort are kept, as
the Python side effects would be). -/
def update_gpio (reg : List (String × Int)) (hb : HeartbeatData) :
    List ServiceBinding → List Event × Option PyErr
  | [] => ([], none)
  | s :: rest =>
    if pyEnabled s then
      match resolve_service_id reg s with
      | Except.error e => ([], some e)
      | Except.ok sid =>
        (Event.gpio s.pin (is_up hb sid) :: (update_gpio reg hb rest).1,
         (update_gpio reg hb rest).2)
    else update_gpio reg hb rest

/-- `StatusMonitor.fetch_heartbeat` (`beacon.py` lines 167-171): on
success `self.heartbeat_data` is replaced wholesale; any exception is
raised before the assignment, leaving the attribute untouched. -/
def fetch_heartbeat (st : MonitorState) (fetch : FetchResult HeartbeatData) :
    Except String MonitorState :=
  match fetch with
  | FetchResult.failure e => Except.error e
  | FetchResult.success p => Except.ok { st with heartbeat_data := p }

/-- `StatusMonitor.check_all` (`beacon.py` lines 178-181): fetch the
heartbeat (exceptions propagate to the caller), then evaluate `is_up` for
every `name → id` pair of the registry mapping, in insertion order. -/
def check_all (st : MonitorState) (fetch : FetchResult HeartbeatData) :
    Except String (MonitorState × List (String × Bool)) :=
  match fetch_heartbeat st fetch with
  | Except.error e => Except.error e
  | Except.ok st1 =>
    Except.ok (st1, st1.name_to_id.map (fun nid => (nid.1, is_up st1.heartbeat_data (some nid.2))))

/-- One iteration of the `while` body of `StatusMonitor._run_periodic`
(`beacon.py` lines 194-202): `try:` run `check_all` and print the status
lines, `except:` print the error; then `time.sleep(interval)`. -/
def run_periodic_iteration (st : MonitorState) (fetch : FetchResult HeartbeatData)
    (interval : Int) : MonitorState × List Event :=
  match check_all st fetch with
  | Except.ok (st1, statusDict) =>
    (st1, Event.printHeader :: statusDict.map (fun p => Event.printStatus p.1 p.2)
          ++ [Event.sleep interval])
  | Except.error e => (st, [Event.printError e, Event.sleep interval])

/-- `StatusMonitor._run_periodic` (`beacon.py` lines 192-202): the loop
runs while the stop event is unset; each iteration consumes one fetch
outcome from the environment.  The supplied list of fetch outcomes bounds
the observation window. -/
def run_periodic (st : MonitorState) (fetches : List (FetchResult HeartbeatData))
    (interval : Int) : MonitorState × List Event :=
  match fetches with
  | [] => (st, [])
  | f :: rest =>
    if st.stopEventSet then (st, [])
    else
      ((run_periodic (run_periodic_iteration st f interval).1 rest interval).1,
       (run_periodic_iteration st f interval).2
         ++ (run_periodic (run_periodic_iteration st f interval).1 rest interval).2)

/-- `StatusMonitor.start_periodic_check` (`beacon.py` lines 183-190):
return immediately when `self._thread` is a live thread; otherwise clear
the stop event, spawn a fresh thread and remember it.  The spawned thread
is alive and increments the ghost count of live threads. -/
def start_periodic_check (st : MonitorState) : MonitorState :=
  match st.thread with
  | some true => st
  | _ =>
    { st with stopEventSet := false, thread := some true,
              aliveThreads := st.aliveThreads + 1 }

/-- `StatusMonitor.stop_periodic_check` (`beacon.py` lines 204-209): set
the stop event; then, if `self._thread` holds a thread object (alive or
not — a `Thread` is always truthy), join it and reset the attribute to
`None`.  Joining a live thread waits for it to exit, decrementing the
ghost count of live threads. -/
def stop_periodic_check (st : MonitorState) : MonitorState :=
  match st.thread with
  | none => { st with stopEventSet := true }
  | some alive =>
    { st with stopEventSet := true, thread := none,
              aliveThreads := if alive then st.aliveThreads - 1 else st.aliveThreads }

/-- `StatusMonitor.__init__` (`beacon.py` lines 133-151) after a
successful construction-time `fetch_status_page`: empty heartbeat dict,
stop event unset, no thread.  (The GPIO mode/setup calls of the
constructor are not modelled; no claim concerns them.) -/
def init_monitor (base_url slug : String) (statusPage : StatusPageData)
    (services : List ServiceBinding) : MonitorState :=
  { base_url := base_url
  , slug := slug
  , name_to_id := fetch_status_page_mapping statusPage
  , heartbeat_data := { heartbeatList := [] }
  , services := services
  , stopEventSet := false
  , thread := none
  , aliveThreads := 0 }

theorem dictGet_append {β : Type} (m1 m2 : List (String × β)) (k : String) :
    dictGet (m1 ++ m2) k =
      match dictGet m1 k with
      | some v => some v
      | none => dictGet m2 k := by
  induction m1 with
  | nil => simp [dictGet]
  | cons p rest ih =>
    by_cases h : p.1 = k
    · simp [dictGet, h]
    · simp [dictGet, h, ih]

theorem dictGet_eq_none_of_any_false (m : List (String × Int)) (k : String)
    (h : m.any (fun p => decide (p.1 = k)) = false) : dictGet m k = none := by
  induction m with
  | nil => rfl
  | cons p rest ih =>
    simp only [List.any_cons, Bool.or_eq_false_iff, decide_eq_false_iff_not] at h
    simp [dictGet, h.1, ih h.2]

theorem dictGet_mapUpdate_ne (m : List (String × Int)) (k : String) (v : Int) (q : String)
    (hq : q ≠ k) :
    dictGet (m.map (fun p => if p.1 = k then (k, v) else p)) q = dictGet m q := by
  induction m with
  | nil => rfl
  | cons p rest ih =>
    by_cases h : p.1 = k
    · simp [dictGet, h, Ne.symm hq, ih]
    · simp [dictGet, h, ih]

theorem dictGet_mapUpdate_eq (m : List (String × Int)) (k : String) (v : Int)
    (hany : m.any (fun p => decide (p.1 = k)) = true) :
    dictGet (m.map (fun p => if p.1 = k then (k, v) else p)) k = some v := by
  induction m with
  | nil => simp at hany
  | cons p rest ih =>
    by_cases h : p.1 = k
    · simp [dictGet, h]
    · rw [List.any_cons, decide_eq_false h, Bool.false_or] at hany
      simp [dictGet, h, ih hany]

theorem dictGet_dictInsert (m : List (String × Int)) (k : String) (v : Int) (q : String) :
    dictGet (dictInsert m k v) q = if q = k then some v else dictGet m q := by
  unfold dictInsert
  by_cases hany : m.any (fun p => decide (p.1 = k)) = true
  · rw [if_pos hany]
    by_cases hq : q = k
    · subst hq
      simp [dictGet_mapUpdate_eq m q v hany]
    · simp [dictGet_mapUpdate_ne m k v q hq, hq]
  · rw [if_neg hany]
    have hfalse : m.any (fun p => decide (p.1 = k)) = false := by
      cases hb : m.any (fun p => decide (p.1 = k)) with
      | true => exact absurd hb hany
      | false => rfl
    rw [dictGet_append]
    by_cases hq : q = k
    · subst hq
      rw [dictGet_eq_none_of_any_false m q hfalse]
      simp [dictGet]
    · cases hm : dictGet m q with
      | some w => simp [hq]
      | none => simp [dictGet, hq, Ne.symm hq]

theorem dictGet_insertAll (l : List (String × Int)) (m : List (String × Int)) (k : String) :
    dictGet (insertAll m l) k =
      match lastVal l k with
      | some v => some v
      | none => dictGet m k := by
  induction l generalizing m with
  | nil => rfl
  | cons p l ih =>
    show dictGet (insertAll (dictInsert m p.1 p.2) l) k = _
    rw [ih]
    cases hl : lastVal l k with
    | some v => simp [lastVal, hl]
    | none =>
      simp only [lastVal, hl]
      rw [dictGet_dictInsert]
      by_cases hq : p.1 = k
      · simp [hq]
      · simp [hq, Ne.symm hq]

theorem lastVal_isSome_of_mem (l : List (String × Int)) (p : String × Int) (h : p ∈ l) :
    (lastVal l p.1).isSome = true := by
  induction l with
  | nil => cases h
  | cons q l ih =>
    cases h with
    | head =>
      cases hl : lastVal l p.1 with
      | some v => simp [lastVal, hl]
      | none => simp [lastVal, hl]
    | tail _ hmem =>
      have hs := ih hmem
      cases hl : lastVal l p.1 with
      | some v => simp [lastVal, hl]
      | none => rw [hl] at hs; simp at hs

theorem insertAll_append (m : List (String × Int)) (l1 l2 : List (String × Int)) :
    insertAll m (l1 ++ l2) = insertAll (insertAll m l1) l2 := by
  simp [insertAll, List.foldl_append]

theorem insertGroup_eq (m : List (String × Int)) (g : GroupInfo) :
    insertGroup m g = insertAll m (groupPairs g) := by
  simp [insertGroup, groupPairs, insertAll, List.foldl_cons, List.foldl_map]

theorem fetch_status_page_mapping_eq (d : StatusPageData) :
    fetch_status_page_mapping d = insertAll [] (traversalPairs d) := by
  suffices h : ∀ (gs : List GroupInfo) (m : List (String × Int)),
      gs.foldl insertGroup m = insertAll m (gs.map groupPairs).flatten by
    exact h d.publicGroupList []
  intro gs
  induction gs with
  | nil => intro m; rfl
  | cons g gs ih =>
    intro m
    simp only [List.foldl_cons, List.map_cons, List.flatten_cons]
    rw [ih, insertAll_append, insertGroup_eq]

/-- C8: the registry fetch builds one flat name-to-id mapping whose lookup
at any name equals the id of the LAST pair with that name in payload
traversal order (each group pair followed by its monitor pairs), so every
group name and every monitor name gets an entry and, on collisions, the
later-inserted entry wins. -/
theorem c8_registry_mapping_last_write_wins (d : StatusPageData) :
    (∀ k, dictGet (fetch_status_page_mapping d) k = lastVal (traversalPairs d) k) ∧
    (∀ p ∈ traversalPairs d, (dictGet (fetch_status_page_mapping d) p.1).isSome = true) := by
  have hmain : ∀ k, dictGet (fetch_status_page_mapping d) k = lastVal (traversalPairs d) k := by
    intro k
    rw [fetch_status_page_mapping_eq, dictGet_insertAll]
    cases lastVal (traversalPairs d) k with
    | none => rfl
    | some v => rfl
  refine ⟨hmain, ?_⟩
  intro p hp
  rw [hmain p.1]
  exact lastVal_isSome_of_mem _ p hp

/-- C2: `is_up` returns true exactly when the heartbeat snapshot stores a
non-empty entry sequence under the stringified monitor id and the last
entry of that sequence carries status code 1; an absent or empty sequence,
or a last entry whose status key is missing or differs from 1, gives
false. -/
theorem c2_is_up_iff (hb : HeartbeatData) (id : Int) :
    is_up hb (some id) = true ↔
      ∃ es e, dictGet hb.heartbeatList (toString id) = some es ∧ es ≠ [] ∧
        es.getLast? = some e ∧ e.status = some 1 := by
  constructor
  · intro h
    simp only [is_up, pyStr] at h
    cases hget : dictGet hb.heartbeatList (toString id) with
    | none =>
      rw [hget] at h
      exact absurd h (by simp)
    | some es =>
      rw [hget] at h
      simp only [Option.getD_some] at h
      cases hlast : es.getLast? with
      | none =>
        rw [hlast] at h
        exact absurd h (by simp)
      | some e =>
        rw [hlast] at h
        refine ⟨es, e, rfl, ?_, hlast, ?_⟩
        · intro hnil
          rw [hnil] at hlast
          exact absurd hlast (by simp)
        · simpa using h
  · rintro ⟨es, e, hget, _, hlast, hstat⟩
    simp only [is_up, pyStr]
    rw [hget]
    simp only [Option.getD_some]
    rw [hlast]
    simp [hstat]

theorem filter_gpio_printStatus (l : List (String × Bool)) :
    (l.map (fun p => Event.printStatus p.1 p.2)).filter isGpioEvent = [] := by
  induction l with
  | nil => rfl
  | cons p l ih => simp [List.filter_cons, isGpioEvent, ih]

theorem run_periodic_iteration_no_gpio (st : MonitorState) (f : FetchResult HeartbeatData)
    (i : Int) : (run_periodic_iteration st f i).2.filter isGpioEvent = [] := by
  cases f with
  | failure e =>
    simp [run_periodic_iteration, check_all, fetch_heartbeat, List.filter_cons, isGpioEvent]
  | success p =>
    simp [run_periodic_iteration, check_all, fetch_heartbeat, List.filter_cons,
          List.filter_append, isGpioEvent, filter_gpio_printStatus]
    intro a x y hmem ha
    subst ha
    rfl

theorem run_periodic_no_gpio (fetches : List (FetchResult HeartbeatData)) (st : MonitorState)
    (i : Int) : (run_periodic st fetches i).2.filter isGpioEvent = [] := by
  induction fetches generalizing st with
  | nil => rfl
  | cons f rest ih =>
    by_cases hstop : st.stopEventSet
    · simp [run_periodic, hstop]
    · simp [run_periodic, hstop, List.filter_append, run_periodic_iteration_no_gpio, ih]

/-- Heartbeat payload reporting monitor 2 up, used as concrete input. -/
def c1Heartbeat : HeartbeatData := { heartbeatList := [("2", [{ status := some 1 }])] }

/-- Status-page payload with one group `groupA` (id 1) containing one
monitor `svc-a` (id 2), used as concrete input. -/
def c1StatusPage : StatusPageData :=
  { publicGroupList := [{ name := "groupA", id := 1, monitorList := [{ name := "svc-a", id := 2 }] }] }

/-- One enabled service binding for `svc-a` on pin 5, concrete input. -/
def c1Services : List ServiceBinding :=
  [{ name := some "svc-a", id := none, pin := 5, enabled := some true }]

/-- A freshly constructed monitor over the concrete payload above. -/
def c1State : MonitorState := init_monitor "http://kuma" "page" c1StatusPage c1Services

/-- C1: the claim says each iteration of the background polling loop
drives the enabled service pins via GPIO after fetching the heartbeat.
The code refutes it: `_run_periodic` only runs `check_all` and prints;
`update_gpio` is never called, so the loop emits no GPIO event at all,
for any state, fetch outcomes and interval — while applying the bindings
(`update_gpio`) on the very same data would drive pin 5 high. -/
theorem c1_loop_never_drives_pins :
    (∀ (st : MonitorState) (fetches : List (FetchResult HeartbeatData)) (i : Int),
        (run_periodic st fetches i).2.filter isGpioEvent = []) ∧
    (run_periodic c1State [FetchResult.success c1Heartbeat] 10).2.filter isGpioEvent = [] ∧
    (update_gpio c1State.name_to_id c1Heartbeat c1State.services).1 = [Event.gpio 5 true] := by
  refine ⟨fun st fetches i => run_periodic_no_gpio fetches st i,
          run_periodic_no_gpio _ _ _, ?_⟩
  decide

/-- C4: when the heartbeat fetch of a cycle fails, the stored heartbeat
snapshot (indeed the whole engine state) is left unchanged, the exception
is contained in that iteration (it becomes an error print), the iteration
still reaches the sleep, and the loop proceeds to the next cycle from the
same state. -/
theorem c4_fetch_error_keeps_snapshot (st : MonitorState) (e : String)
    (rest : List (FetchResult HeartbeatData)) (i : Int)
    (h : st.stopEventSet = false) :
    run_periodic_iteration st (FetchResult.failure e) i
        = (st, [Event.printError e, Event.sleep i]) ∧
    run_periodic st (FetchResult.failure e :: rest) i
        = ((run_periodic st rest i).1,
           Event.printError e :: Event.sleep i :: (run_periodic st rest i).2) := by
  constructor
  · simp [run_periodic_iteration, check_all, fetch_heartbeat]
  · simp [run_periodic, h, run_periodic_iteration, check_all, fetch_heartbeat]

/-- Witness for C4 at a concrete state and fetch failure. -/
theorem c4_fetch_error_keeps_snapshot_witness :
    run_periodic_iteration c1State (FetchResult.failure "boom") 10
        = (c1State, [Event.printError "boom", Event.sleep 10]) ∧
    run_periodic c1State [FetchResult.failure "boom"] 10
        = ((run_periodic c1State [] 10).1,
           Event.printError "boom" :: Event.sleep 10 :: (run_periodic c1State [] 10).2) :=
  c4_fetch_error_keeps_snapshot c1State "boom" [] 10 rfl

theorem update_gpio_append (reg : List (String × Int)) (hb : HeartbeatData)
    (l1 l2 : List ServiceBinding) (h : (update_gpio reg hb l1).2 = none) :
    update_gpio reg hb (l1 ++ l2) =
      ((update_gpio reg hb l1).1 ++ (update_gpio reg hb l2).1,
       (update_gpio reg hb l2).2) := by
  induction l1 with
  | nil => simp [update_gpio]
  | cons s l1 ih =>
    by_cases hen : pyEnabled s = true
    · cases hres : resolve_service_id reg s with
      | error e =>
        exfalso
        simp [update_gpio, hen, hres] at h
      | ok sid =>
        have h1 : (update_gpio reg hb l1).2 = none := by
          simpa [update_gpio, hen, hres] using h
        simp [update_gpio, hen, hres, ih h1]
    · have h1 : (update_gpio reg hb l1).2 = none := by
        simpa [update_gpio, hen] using h
      simp [update_gpio, hen, ih h1]

/-- True exactly on GPIO events addressing pin `p`. -/
def touchesPin (p : Int) (ev : Event) : Bool :=
  match ev with
  | Event.gpio q _ => decide (q = p)
  | _ => false

/-- Registry mapping with only `svc-a → 2`, concrete input. -/
def c3Registry : List (String × Int) := [("svc-a", 2)]

/-- Heartbeat payload reporting monitor 2 up, concrete input. -/
def c3Heartbeat : HeartbeatData := { heartbeatList := [("2", [{ status := some 1 }])] }

/-- Two enabled bindings: `svc-z` (absent from the registry) on pin 6 and
`svc-a` on pin 5, concrete input. -/
def c3Services : List ServiceBinding :=
  [{ name := some "svc-z", id := none, pin := 6, enabled := some true },
   { name := some "svc-a", id := none, pin := 5, enabled := some true }]

/-- C3 counterexample: with binding `svc-z` unresolvable, the claim says
its pin 6 is left untouched; the code instead drives pin 6 — the lookup
yields `None`, `is_up(None)` is false, and the pin is written low (and no
warning mechanism exists in the code).  The other binding is applied. -/
theorem c3_counterexample :
    (update_gpio c3Registry c3Heartbeat c3Services).1
        = [Event.gpio 6 false, Event.gpio 5 true] ∧
    (update_gpio c3Registry c3Heartbeat c3Services).1.any (touchesPin 6) = true := by
  decide

/-- C3 amended: an enabled binding whose monitor id cannot be resolved
(no truthy explicit id and its name absent from the registry) is NOT
skipped: its unresolved id evaluates as down — provided the snapshot
stores nothing under the literal key "None" — so its pin is driven low;
no warning is reported; all other bindings in the same pass are still
applied, before and after it. -/
theorem c3_unresolved_binding_drives_low (reg : List (String × Int)) (hb : HeartbeatData)
    (l1 l2 : List ServiceBinding) (s : ServiceBinding) (n : String)
    (h1 : pyEnabled s = true) (h2 : pyTruthyOptInt s.id = false)
    (h3 : s.name = some n) (h4 : dictGet reg n = none)
    (h5 : dictGet hb.heartbeatList "None" = none)
    (h6 : (update_gpio reg hb l1).2 = none) :
    update_gpio reg hb (l1 ++ s :: l2) =
      ((update_gpio reg hb l1).1 ++ Event.gpio s.pin false :: (update_gpio reg hb l2).1,
       (update_gpio reg hb l2).2) := by
  have hres : resolve_service_id reg s = Except.ok none := by
    simp [resolve_service_id, h2, h3, h4]
  have hup : is_up hb none = false := by
    simp [is_up, pyStr, h5]
  rw [update_gpio_append reg hb l1 (s :: l2) h6]
  simp [update_gpio, h1, hres, hup]

/-- Witness for C3 amended at the concrete inputs of the counterexample. -/
theorem c3_unresolved_binding_drives_low_witness :
    update_gpio c3Registry c3Heartbeat
        ([] ++ ({ name := some "svc-z", id := none, pin := 6, enabled := some true } : ServiceBinding)
          :: [{ name := some "svc-a", id := none, pin := 5, enabled := some true }]) =
      ((update_gpio c3Registry c3Heartbeat []).1 ++ Event.gpio 6 false ::
        (update_gpio c3Registry c3Heartbeat
          [{ name := some "svc-a", id := none, pin := 5, enabled := some true }]).1,
       (update_gpio c3Registry c3Heartbeat
          [{ name := some "svc-a", id := none, pin := 5, enabled := some true }]).2) :=
  c3_unresolved_binding_drives_low c3Registry c3Heartbeat [] _ _ "svc-z"
    rfl rfl rfl (by decide) (by decide) rfl

/-- Heartbeat payload where monitor 2 is up and monitor 0 is down,
concrete input. -/
def c5Heartbeat : HeartbeatData :=
  { heartbeatList := [("2", [{ status := some 1 }]), ("0", [{ status := some 0 }])] }

/-- C5 counterexample: a binding carrying the explicit id 0 whose name
resolves to monitor 2.  The claim says the pin is driven by the verdict
for the explicit id (down, so low); the code drives it high, because the
falsy id 0 is ignored and the name lookup wins. -/
theorem c5_counterexample :
    (update_gpio [("x", 2)] c5Heartbeat
        [{ name := some "x", id := some 0, pin := 5, enabled := some true }]).1
      = [Event.gpio 5 true] ∧
    is_up c5Heartbeat (some 0) = false := by
  decide

/-- C5 amended: for every enabled binding carrying an explicit NONZERO
monitor id, resolution uses that id: the pin is driven according to the
verdict for it, and the result is independent of the registry mapping
(the name lookup is never consulted). -/
theorem c5_explicit_nonzero_id_wins (reg reg2 : List (String × Int)) (hb : HeartbeatData)
    (s : ServiceBinding) (i : Int)
    (h1 : pyEnabled s = true) (h2 : s.id = some i) (h3 : i ≠ 0) :
    update_gpio reg hb [s] = ([Event.gpio s.pin (is_up hb (some i))], none) ∧
    update_gpio reg hb [s] = update_gpio reg2 hb [s] := by
  have hres : ∀ r : List (String × Int), resolve_service_id r s = Except.ok (some i) := by
    intro r
    simp [resolve_service_id, h2, pyTruthyOptInt, h3]
  constructor
  · simp [update_gpio, h1, hres reg]
  · simp [update_gpio, h1, hres reg, hres reg2]

/-- Witness for C5 amended: explicit id 2 beats a registry that maps the
name to 99, and an empty registry gives the same result. -/
theorem c5_explicit_nonzero_id_wins_witness :
    update_gpio [("x", 99)] c5Heartbeat
        [{ name := some "x", id := some 2, pin := 7, enabled := some true }]
      = ([Event.gpio 7 (is_up c5Heartbeat (some 2))], none) ∧
    update_gpio [("x", 99)] c5Heartbeat
        [{ name := some "x", id := some 2, pin := 7, enabled := some true }]
      = update_gpio [] c5Heartbeat
        [{ name := some "x", id := some 2, pin := 7, enabled := some true }] :=
  c5_explicit_nonzero_id_wins [("x", 99)] [] c5Heartbeat _ 2 rfl rfl (by decide)

/-- C6: a second `start_periodic_check` issued while the thread spawned by
the first is still alive is a no-op, and exactly one live background
thread exists afterwards (starting from a never-started engine). -/
theorem c6_start_idempotent (st : MonitorState)
    (h1 : st.thread = none) (h2 : st.aliveThreads = 0) :
    start_periodic_check (start_periodic_check st) = start_periodic_check st ∧
    (start_periodic_check st).thread = some true ∧
    (start_periodic_check (start_periodic_check st)).aliveThreads = 1 := by
  simp [start_periodic_check, h1, h2]

/-- Witness for C6 at a freshly constructed monitor. -/
theorem c6_start_idempotent_witness :
    start_periodic_check (start_periodic_check c1State) = start_periodic_check c1State ∧
    (start_periodic_check c1State).thread = some true ∧
    (start_periodic_check (start_periodic_check c1State)).aliveThreads = 1 :=
  c6_start_idempotent c1State rfl rfl

/-- C7 counterexample: stopping a never-started engine is not a pure
no-op on the engine state: it sets the internal stop flag. -/
theorem c7_counterexample :
    stop_periodic_check c1State ≠ c1State ∧
    (stop_periodic_check c1State).stopEventSet = true ∧
    c1State.stopEventSet = false := by
  decide

/-- C7 amended: `stop_periodic_check` before any start spawns and joins
no thread and returns at once; its only state change is setting the
internal stop flag, which the next start clears again, so a subsequent
start behaves exactly as it would have without the stop. -/
theorem c7_stop_before_start (st : MonitorState) (h : st.thread = none) :
    stop_periodic_check st = { st with stopEventSet := true } ∧
    (stop_periodic_check st).thread = none ∧
    (stop_periodic_check st).aliveThreads = st.aliveThreads ∧
    start_periodic_check (stop_periodic_check st) = start_periodic_check st := by
  have hstop : stop_periodic_check st = { st with stopEventSet := true } := by
    simp [stop_periodic_check, h]
  refine ⟨hstop, ?_, ?_, ?_⟩
  · rw [hstop]
    exact h
  · rw [hstop]
  · rw [hstop]
    simp [start_periodic_check, h]

/-- Witness for C7 amended at a freshly constructed monitor. -/
theorem c7_stop_before_start_witness :
    stop_periodic_check c1State = { c1State with stopEventSet := true } ∧
    (stop_periodic_check c1State).thread = none ∧
    (stop_periodic_check c1State).aliveThreads = c1State.aliveThreads ∧
    start_periodic_check (stop_periodic_check c1State) = start_periodic_check c1State :=
  c7_stop_before_start c1State rfl

/-- C9: a binding without an explicit `enabled` field defaults to
enabled: `pyEnabled` is true and, whenever its id resolves, its pin is
driven like that of any enabled binding. -/
theorem c9_enabled_defaults_true (reg : List (String × Int)) (hb : HeartbeatData)
    (s : ServiceBinding) (rest : List ServiceBinding) (sid : Option Int)
    (h1 : s.enabled = none) (h2 : resolve_service_id reg s = Except.ok sid) :
    pyEnabled s = true ∧
    update_gpio reg hb (s :: rest) =
      (Event.gpio s.pin (is_up hb sid) :: (update_gpio reg hb rest).1,
       (update_gpio reg hb rest).2) := by
  have hen : pyEnabled s = true := by simp [pyEnabled, h1]
  exact ⟨hen, by simp [update_gpio, hen, h2]⟩

/-- Witness for C9: binding for `svc-a` with no `enabled` field has its
pin driven. -/
theorem c9_enabled_defaults_true_witness :
    pyEnabled { name := some "svc-a", id := none, pin := 5, enabled := none } = true ∧
    update_gpio c3Registry c3Heartbeat
        [{ name := some "svc-a", id := none, pin := 5, enabled := none }] =
      (Event.gpio 5 (is_up c3Heartbeat (some 2)) :: (update_gpio c3Registry c3Heartbeat []).1,
       (update_gpio c3Registry c3Heartbeat []).2) :=
  c9_enabled_defaults_true c3Registry c3Heartbeat _ [] (some 2) rfl rfl

/-- C10: an explicit id of 0 is falsy in the `or` of the resolution
expression, so the binding resolves exactly as if the id were absent:
the name lookup decides, and binding application is unchanged. -/
theorem c10_zero_id_falls_back_to_name (reg : List (String × Int)) (hb : HeartbeatData)
    (s : ServiceBinding) (rest : List ServiceBinding) (h : s.id = some 0) :
    resolve_service_id reg s = resolve_service_id reg { s with id := none } ∧
    update_gpio reg hb (s :: rest) = update_gpio reg hb ({ s with id := none } :: rest) := by
  obtain ⟨nm, sid, pin, en⟩ := s
  obtain rfl : sid = some 0 := h
  exact ⟨rfl, rfl⟩

/-- Witness for C10: the binding with explicit id 0 behaves exactly like
the same binding without an id. -/
theorem c10_zero_id_falls_back_to_name_witness :
    resolve_service_id c3Registry
        { name := some "svc-a", id := some 0, pin := 5, enabled := some true }
      = resolve_service_id c3Registry
        { name := some "svc-a", id := none, pin := 5, enabled := some true } ∧
    update_gpio c3Registry c3Heartbeat
        [{ name := some "svc-a", id := some 0, pin := 5, enabled := some true }]
      = update_gpio c3Registry c3Heartbeat
        [{ name := some "svc-a", id := none, pin := 5, enabled := some true }] :=
  c10_zero_id_falls_back_to_name c3Registry c3Heartbeat _ [] rfl

end Beacon
